import Mathlib

/-!
Verification development for the crypto payment settlement core of the
EcommerceMern backend.  The definitions below are shallow embeddings of:

* the request-validation middleware `validateCryptoPayment` and the handler
  `verifyCryptoPayment` (src/middleware/payment.middleware.js),
* the cache client variants exported as `redis` (src/lib/redis.js):
  the Upstash REST client, the live ioredis client, and the in-memory
  mock fallback,
* the contract-interface loader `loadContractAbi` (src/lib/blockchain.js).

Effectful JavaScript is modelled with explicit state passing: a cache client
is a record of fallible operations on a key-value state, where a thrown /
rejected promise is `Except.error ()`.  Ambient wall-clock time
(`Date.now()`, TTL expiry) is an explicit `now : Nat` parameter in seconds.
-/

set_option autoImplicit false

/-- Result of a JavaScript async call: `Except.error ()` models a thrown
exception / rejected promise, `Except.ok` a normal completion. -/
abbrev JsResult (α : Type) := Except Unit α

/-- Contents of the key-value cache: for each write, the key, the stored
string value, and the optional absolute expiry deadline (in seconds) derived
from the TTL at write time.  Newer writes are consed to the front and nothing
is physically deleted; lookup takes the most recent write, which models
overwrite semantics. -/
abbrev KV := List (String × String × Option Nat)

/-- Whether an entry with the given expiry deadline is still live at `now`.
`none` means no TTL was set, so the entry never expires. -/
def liveEntry (now : Nat) (d : Option Nat) : Bool :=
  match d with
  | none => true
  | some dl => now < dl

/-- Redis GET semantics over `KV`: most recent write for the key, provided
its TTL deadline has not passed. -/
def kvGet (s : KV) (now : Nat) (k : String) : Option String :=
  match s.find? (fun e => e.1 == k) with
  | some (_, v, d) => if liveEntry now d then some v else none
  | none => none

/-- Redis SET semantics over `KV`: record the value, with the expiry deadline
`now + ttl` when an `EX` TTL was supplied. -/
def kvSet (s : KV) (now : Nat) (k v : String) (ttl : Option Nat) : KV :=
  (k, v, ttl.map (fun t => now + t)) :: s

/-- Decimal parsing of a stored counter value.  The middleware only ever
increments its own counter keys, which always hold decimal numerals. -/
def parseCounter (s : String) : Option Nat :=
  if s.data.isEmpty then none
  else if s.data.all Char.isDigit then
    some (s.data.foldl (fun n c => n * 10 + (c.toNat - 48)) 0)
  else none

/-- Redis INCR semantics over `KV`: a live entry is parsed as a number and
incremented, keeping its TTL deadline; a missing or expired key is created
fresh at 1 with no TTL. -/
def kvIncr (s : KV) (now : Nat) (k : String) : Nat × KV :=
  match s.find? (fun e => e.1 == k) with
  | some (_, v, d) =>
    if liveEntry now d then
      let n := (parseCounter v).getD 0 + 1
      (n, (k, toString n, d) :: s)
    else (1, (k, "1", none) :: s)
  | none => (1, (k, "1", none) :: s)

/-- Redis EXPIRE semantics over `KV`: set the TTL deadline of a live entry to
`now + t`; no effect on a missing or expired key. -/
def kvExpire (s : KV) (now : Nat) (k : String) (t : Nat) : KV :=
  match s.find? (fun e => e.1 == k) with
  | some (k0, v, d) =>
    if k0 == k && liveEntry now d then (k, v, some (now + t)) :: s else s
  | none => s

/-- Interface of the cache client object imported as `redis` by the payment
middleware.  Each field is one method; a method that is undefined on the
concrete client (so that calling it throws a TypeError) or whose request
fails is modelled as returning `Except.error ()`. -/
structure CacheClient (σ : Type) where
  get : σ → Nat → String → JsResult (Option String) × σ
  set : σ → Nat → String → String → Option Nat → JsResult Unit × σ
  incr : σ → Nat → String → JsResult Nat × σ
  expire : σ → Nat → String → Nat → JsResult Unit × σ

/-- The live ioredis client (src/lib/redis.js, traditional-client branch,
connection up): all four methods exist and succeed, and `set` honours the
`EX` TTL argument. -/
def redisLiveClient : CacheClient KV where
  get := fun s now k => (Except.ok (kvGet s now k), s)
  set := fun s now k v ttl => (Except.ok (), kvSet s now k v ttl)
  incr := fun s now k =>
    let p := kvIncr s now k
    (Except.ok p.1, p.2)
  expire := fun s now k t => (Except.ok (), kvExpire s now k t)

/-- The Upstash REST client (src/lib/redis.js lines 14-74): it defines
`get`, `set` (honouring the `EX` argument, lines 48-56), `del` and `ping`,
but defines no `incr` and no `expire` method, so calling either throws a
TypeError, modelled as `Except.error ()`. -/
def upstashRestClient : CacheClient KV where
  get := fun s now k => (Except.ok (kvGet s now k), s)
  set := fun s now k v ttl => (Except.ok (), kvSet s now k v ttl)
  incr := fun s _ _ => (Except.error (), s)
  expire := fun s _ _ _ => (Except.error (), s)

/-- The in-memory mock fallback (src/lib/redis.js lines 107-117): `get` and
`set` are plain `Map` operations — `set` ignores every argument beyond the
key and the value, so the `EX` TTL is dropped and entries never expire — and
no `incr` or `expire` method is defined. -/
def memoryMockClient : CacheClient KV where
  get := fun s _ k =>
    (Except.ok ((s.find? (fun e => e.1 == k)).map (fun e => e.2.1)), s)
  set := fun s _ k v _ => (Except.ok (), (k, v, none) :: s)
  incr := fun s _ _ => (Except.error (), s)
  expire := fun s _ _ _ => (Except.error (), s)

/-- A cache whose every operation throws (connection down): models total
cache unreachability for the graceful-degradation analysis. -/
def unreachableClient : CacheClient KV where
  get := fun s _ _ => (Except.error (), s)
  set := fun s _ _ _ _ => (Except.error (), s)
  incr := fun s _ _ => (Except.error (), s)
  expire := fun s _ _ _ => (Except.error (), s)

/-- One item of the `products` array in the request body. -/
structure ProductItem where
  productRef : String
  name : String
  price : Int
  quantity : Nat
deriving DecidableEq

/-- The request body read by both payment functions:
`{products, paymentId, walletAddress, transactionHash, amount}`.  A `none`
field models an absent / falsy value. -/
structure VReq where
  products : List ProductItem
  paymentId : Option String
  walletAddress : Option String
  transactionHash : Option String
  amount : Option Int
deriving DecidableEq

/-- An HTTP error body produced by `res.status(status).json(...)`:
the `error` string and the optional `retryAfter` and `retryable` fields. -/
structure ErrBody where
  status : Nat
  error : String
  retryAfter : Option Nat
  retryable : Option Bool
deriving DecidableEq

/-- Result of the validation middleware: either an error response or a call
to `next()` handing the request to the verification handler. -/
inductive MWResult where
  | respond (r : ErrBody)
  | next
deriving DecidableEq

/-- The transaction hash format check `/^0x([A-Fa-f0-9]{64})$/` at
payment.middleware.js line 40. -/
def isHexChar (c : Char) : Bool :=
  c.isDigit || ('a' ≤ c && c ≤ 'f') || ('A' ≤ c && c ≤ 'F')

/-- Test of the fixed transaction-hash pattern: `0x` followed by exactly 64
hexadecimal characters. -/
def txHashRegexTest (s : String) : Bool :=
  match s.data with
  | '0' :: 'x' :: rest => rest.length == 64 && rest.all isHexChar
  | _ => false

/-- The dedup-lock and rate-limit section of `validateCryptoPayment`
(payment.middleware.js lines 45-74): read the in-flight lock
`tx-processing:<hash>` and reject 429/retryAfter 5 if present; otherwise
unconditionally set it with `EX 300`; increment `wallet-requests:<wallet>`,
set a 60 s expiry when the counter is fresh, and reject 429/retryAfter 60
when the incremented count exceeds 10.  The whole section sits in a
try/catch whose handler falls through, so any cache exception makes the
middleware call `next()` (lines 71-74). -/
def validateCacheSection {σ : Type} (cl : CacheClient σ) (now : Nat)
    (wallet hash : String) (s : σ) : MWResult × σ :=
  match cl.get s now (String.append "tx-processing:" hash) with
  | (Except.error _, s1) => (MWResult.next, s1)
  | (Except.ok (some _), s1) =>
      (MWResult.respond ⟨429, "Transaction is already being processed", some 5, none⟩, s1)
  | (Except.ok none, s1) =>
    match cl.set s1 now (String.append "tx-processing:" hash) (toString now) (some 300) with
    | (Except.error _, s2) => (MWResult.next, s2)
    | (Except.ok _, s2) =>
      match cl.incr s2 now (String.append "wallet-requests:" wallet) with
      | (Except.error _, s3) => (MWResult.next, s3)
      | (Except.ok n, s3) =>
        match (if n == 1 then
                 cl.expire s3 now (String.append "wallet-requests:" wallet) 60
               else (Except.ok (), s3)) with
        | (Except.error _, s4) => (MWResult.next, s4)
        | (Except.ok _, s4) =>
          if n > 10 then
            (MWResult.respond ⟨429, "Too many payment verification requests", some 60, none⟩, s4)
          else (MWResult.next, s4)

/-- The middleware `validateCryptoPayment` (payment.middleware.js lines
10-77): structural validation of the request body in source order, then the
cache section.  `isAddr` stands for the external `ethers.isAddress`
predicate. -/
def validateCryptoPayment {σ : Type} (cl : CacheClient σ) (isAddr : String → Bool)
    (now : Nat) (req : VReq) (s : σ) : MWResult × σ :=
  if req.products.isEmpty then
    (MWResult.respond ⟨400, "Invalid products data", none, none⟩, s)
  else
    match req.paymentId, req.walletAddress, req.transactionHash with
    | none, _, _ => (MWResult.respond ⟨400, "Payment ID is required", none, none⟩, s)
    | some _, none, _ =>
        (MWResult.respond ⟨400, "Wallet address is required", none, none⟩, s)
    | some _, some _, none =>
        (MWResult.respond ⟨400, "Transaction hash is required", none, none⟩, s)
    | some _, some wallet, some hash =>
      match req.amount with
      | none => (MWResult.respond ⟨400, "Invalid amount", none, none⟩, s)
      | some a =>
        if a ≤ 0 then (MWResult.respond ⟨400, "Invalid amount", none, none⟩, s)
        else if !(isAddr wallet) then
          (MWResult.respond ⟨400, "Invalid wallet address format", none, none⟩, s)
        else if !(txHashRegexTest hash) then
          (MWResult.respond ⟨400, "Invalid transaction hash format", none, none⟩, s)
        else
          validateCacheSection cl now wallet hash s

/-- Observable side effects of one run of the verification handler, in
execution order: the order persisted by `order.save()` and each cache write
with its key, value and TTL. -/
inductive Effect where
  | orderSaved (orderId : String)
  | cacheWrite (key value : String) (ttl : Option Nat)
deriving DecidableEq

/-- A transaction receipt as used by the handler: only its success flag is
read (`receipt.status`). -/
structure Receipt where
  status : Bool
deriving DecidableEq

/-- The contract instance returned by `getPaymentProcessorContract`: only its
deployed address is read (`contract.options.address`). -/
structure ContractInstance where
  address : String
deriving DecidableEq

/-- A transaction object as used by the handler: only its recipient field is
read (`transaction.to`, which is null — modelled `none` — for a
contract-creation transaction). -/
structure TxnInfo where
  toAddr : Option String
deriving DecidableEq

/-- Outcomes of the external blockchain and database calls made during one
run of `verifyCryptoPayment`.  `isBlockchainHealthy` and
`getPaymentProcessorContract` catch internally and return a boolean
resp. null, so they are infallible here; the other calls can reject, which
the handler catches in its inner try. -/
structure ChainEnv where
  healthy : Bool
  receipt : JsResult (Option Receipt)
  contract : Option ContractInstance
  paymentStatus : JsResult Bool
  transaction : JsResult (Option TxnInfo)
  saveOrder : JsResult String

/-- Response of the verification handler: an error body or the 200 success
payload carrying the created order. -/
inductive VerifyResp where
  | err (status : Nat) (error : String) (retryable : Option Bool) (retryAfter : Option Nat)
  | ok (orderId : String) (amount : Option Int)
deriving DecidableEq

/-- ASCII lowercase conversion, modelling the JavaScript `toLowerCase()`
calls used for the case-insensitive recipient comparison. -/
def jsToLowerCase (s : String) : String := String.mk (s.data.map Char.toLower)

/-- The value stored for a processed payment at `tx:<hash>`
(payment.middleware.js lines 304-307): the JSON rendering of
`\x7borderId, timestamp\x7d`. -/
def processedPaymentValue (orderId : String) (now : Nat) : String :=
  String.append "\x7b\"orderId\":\""
    (String.append orderId
      (String.append "\",\"timestamp\":" (String.append (toString now) "\x7d")))

/-- The 500 response of the inner catch block (payment.middleware.js lines
318-325). -/
def errBlockchainVerify : VerifyResp :=
  VerifyResp.err 500 "Error verifying blockchain transaction" (some true) none

/-- Body of the inner try block of `verifyCryptoPayment` (payment.middleware.js
lines 245-325): receipt fetch and success check, contract availability,
`getPaymentStatus(paymentId)` with its dedicated catch, recipient check
against the contract address (note that a null `to` field throws a TypeError
from `.toLowerCase()`, landing in the inner catch), order persistence, and
the processed-payment cache write with `EX` 7 days. -/
def verifyCryptoInner {σ : Type} (cl : CacheClient σ) (env : ChainEnv) (req : VReq)
    (hash : String) (now : Nat) (s : σ) : VerifyResp × σ × List Effect :=
  match env.receipt with
  | Except.error _ => (errBlockchainVerify, s, [])
  | Except.ok none =>
      (VerifyResp.err 400 "Invalid transaction or transaction failed" none none, s, [])
  | Except.ok (some r) =>
    if !r.status then
      (VerifyResp.err 400 "Invalid transaction or transaction failed" none none, s, [])
    else
      match env.contract with
      | none =>
          (VerifyResp.err 503 "Blockchain services temporarily unavailable" (some true) (some 60), s, [])
      | some c =>
        match env.paymentStatus with
        | Except.error _ =>
            (VerifyResp.err 500 "Error verifying payment status on blockchain" (some true) none, s, [])
        | Except.ok ps =>
          if !ps then
            (VerifyResp.err 400 "Payment not found or not processed on blockchain" none none, s, [])
          else
            match env.transaction with
            | Except.error _ => (errBlockchainVerify, s, [])
            | Except.ok none =>
                (VerifyResp.err 400 "Transaction not sent to payment processor contract" none none, s, [])
            | Except.ok (some t) =>
              match t.toAddr with
              | none => (errBlockchainVerify, s, [])
              | some dest =>
                if !(jsToLowerCase dest == jsToLowerCase c.address) then
                  (VerifyResp.err 400 "Transaction not sent to payment processor contract" none none, s, [])
                else
                  match env.saveOrder with
                  | Except.error _ => (errBlockchainVerify, s, [])
                  | Except.ok oid =>
                    match cl.set s now (String.append "tx:" hash)
                        (processedPaymentValue oid now) (some 604800) with
                    | (Except.error _, s2) =>
                        (errBlockchainVerify, s2, [Effect.orderSaved oid])
                    | (Except.ok _, s2) =>
                        (VerifyResp.ok oid req.amount, s2,
                         [Effect.orderSaved oid,
                          Effect.cacheWrite (String.append "tx:" hash)
                            (processedPaymentValue oid now) (some 604800)])

/-- The handler `verifyCryptoPayment` (payment.middleware.js lines 216-333):
structural checks, the processed-transaction dedup read of `tx:<hash>`
(outside any inner try, so a cache exception lands in the outer catch and
produces the generic 500), the blockchain health gate, then the inner
verification block. -/
def verifyCryptoPayment {σ : Type} (cl : CacheClient σ) (env : ChainEnv) (req : VReq)
    (now : Nat) (s : σ) : VerifyResp × σ × List Effect :=
  if req.products.isEmpty then
    (VerifyResp.err 400 "Invalid or empty products array" none none, s, [])
  else
    match req.paymentId, req.walletAddress, req.transactionHash with
    | some _, some _, some hash =>
      match cl.get s now (String.append "tx:" hash) with
      | (Except.error _, s1) =>
          (VerifyResp.err 500 "An error occurred while verifying crypto payment" none none, s1, [])
      | (Except.ok (some _), s1) =>
          (VerifyResp.err 400 "Transaction already processed" none none, s1, [])
      | (Except.ok none, s1) =>
        if !env.healthy then
          (VerifyResp.err 503 "Blockchain services temporarily unavailable" (some true) (some 60), s1, [])
        else verifyCryptoInner cl env req hash now s1
    | _, _, _ => (VerifyResp.err 400 "Missing required parameters" none none, s, [])

/-- Program counter of one request inside the in-flight gate
(payment.middleware.js lines 45-57): `0` before the `get` of
`tx-processing:<hash>`, `1` after a `get` that returned nothing (about to
`set`), `2` after the unconditional `set` (the request passed the gate),
`3` rejected because the `get` saw an existing lock. -/
structure GateState where
  cache : KV
  pcA : Nat
  pcB : Nat
deriving DecidableEq

/-- One atomic cache operation of one request in the in-flight gate, against
the shared cache, with live-Redis semantics.  Each request performs at most
two operations: the read at pc 0 and the unconditional write at pc 1. -/
def gateStepPc (hash : String) (now : Nat) (pc : Nat) (c : KV) : Nat × KV :=
  if pc == 0 then
    match kvGet c now (String.append "tx-processing:" hash) with
    | some _ => (3, c)
    | none => (1, c)
  else if pc == 1 then
    (2, kvSet c now (String.append "tx-processing:" hash) (toString now) (some 300))
  else (pc, c)

/-- Scheduler step: run the next cache operation of request A (`true`) or of
request B (`false`). -/
def gateStep (hash : String) (now : Nat) (isA : Bool) (s : GateState) : GateState :=
  if isA then
    let p := gateStepPc hash now s.pcA s.cache
    ⟨p.2, p.1, s.pcB⟩
  else
    let p := gateStepPc hash now s.pcB s.cache
    ⟨p.2, s.pcA, p.1⟩

/-- Run two concurrent verifications of the same transaction hash through the
in-flight gate under the given interleaving schedule. -/
def runGate (hash : String) (now : Nat) (sched : List Bool) (s : GateState) : GateState :=
  sched.foldl (fun st b => gateStep hash now b st) s

/-- Initial gate state: empty cache, both requests before their first cache
operation. -/
def initGate : GateState := ⟨[], 0, 0⟩

/-- Whether a request has passed the in-flight gate (it executed its
unconditional `set` after a `get` that saw no lock). -/
def passedGate (pc : Nat) : Bool := pc == 2

/-- The parsed contract build artifact `PaymentProcessor.json`:
`\x7babi, networks\x7d` with the per-network deployment addresses
(blockchain.js lines 14-16, 282-292). -/
structure ContractJson where
  abi : String
  networks : List (String × String)
deriving DecidableEq

/-- Filesystem view of the contract artifact at one poll: whether the file
exists, its modification time `mtimeMs`, and the result of reading and
JSON-parsing it (`Except.error ()` when either throws). -/
structure ArtifactFs where
  fileExists : Bool
  mtimeMs : Nat
  parsed : JsResult ContractJson

/-- Module state of the loader (blockchain.js lines 16-19): the current
descriptor — `none` models the initial `\x7bnetworks: \x7b\x7d\x7d`
placeholder, before any successful load — and the wall-clock time of the
last successful load. -/
structure LoaderState where
  paymentProcessor : Option ContractJson
  lastContractLoadTime : Nat
deriving DecidableEq

/-- The loader `loadContractAbi` (blockchain.js lines 23-42): if the artifact
file exists and its modification time is newer than the time of the last
successful load, read and parse it and replace the descriptor, recording
`Date.now()`; a missing file, or a read/parse exception caught by the
surrounding try, leaves the state untouched. -/
def loadContractAbi (fsa : ArtifactFs) (now : Nat) (st : LoaderState) : LoaderState :=
  if fsa.fileExists then
    if fsa.mtimeMs > st.lastContractLoadTime then
      match fsa.parsed with
      | Except.ok json => ⟨some json, now⟩
      | Except.error _ => st
    else st
  else st

/-- The initial loader state: the placeholder descriptor and load time 0. -/
def initLoaderState : LoaderState := ⟨none, 0⟩

/-- Whether a middleware result is the per-wallet rate-limit rejection
(status 429, error "Too many payment verification requests"). -/
def isRateLimitedResp : MWResult → Bool
  | MWResult.respond r =>
      r.status == 429 && r.error == "Too many payment verification requests"
  | MWResult.next => false

/-- Whether a middleware result is the in-flight-lock rejection (status 429,
error "Transaction is already being processed"). -/
def isInFlightResp : MWResult → Bool
  | MWResult.respond r =>
      r.status == 429 && r.error == "Transaction is already being processed"
  | MWResult.next => false

/-- Whether a verification response is the 200 success payload. -/
def isSuccessResp : VerifyResp → Bool
  | VerifyResp.ok _ _ => true
  | VerifyResp.err _ _ _ _ => false

/-- Number of orders persisted in an effect trace. -/
def ordersCreated (tr : List Effect) : Nat :=
  (tr.filter fun e =>
    match e with
    | Effect.orderSaved _ => true
    | Effect.cacheWrite _ _ _ => false).length

/-- The gating conditions of steps 6-8 of the pipeline: receipt fetched and
successful, settlement contract available and reporting a truthy status, and
the transaction present with a recipient equal (case-insensitively) to the
contract's deployed address. -/
def orderGates (env : ChainEnv) : Prop :=
  env.healthy = true ∧
  (∃ r : Receipt, env.receipt = Except.ok (some r) ∧ r.status = true) ∧
  env.paymentStatus = Except.ok true ∧
  (∃ (c : ContractInstance) (t : TxnInfo) (dest : String),
    env.contract = some c ∧ env.transaction = Except.ok (some t) ∧
    t.toAddr = some dest ∧ jsToLowerCase dest = jsToLowerCase c.address)

/-- A fixed well-formed transaction hash used by concrete scenarios. -/
def goodHash : String :=
  "0xaaaaaaaaaaaaaaaaaaaaaaaaaaaaaaaaaaaaaaaaaaaaaaaaaaaaaaaaaaaaaaaa"

/-- A fixed wallet address used by concrete scenarios. -/
def goodWallet : String := "0x1111111111111111111111111111111111111111"

/-- A fixed product line used by concrete scenarios. -/
def sampleProduct : ProductItem := ⟨"p1", "Widget", 5, 1⟩

/-- A structurally valid verification request used by concrete scenarios. -/
def goodReq : VReq :=
  ⟨[sampleProduct], some "pay1", some goodWallet, some goodHash, some 5⟩

/-- A blockchain environment in which every external check passes: healthy
node, successful receipt, truthy settlement status, matching recipient, and
a database save that returns order id "order1". -/
def allGoodEnv : ChainEnv :=
  ⟨true, Except.ok (some ⟨true⟩), some ⟨"0xCAFE"⟩, Except.ok true,
   Except.ok (some ⟨some "0xcafe"⟩), Except.ok "order1"⟩

/-- A cache state holding a ProcessedPaymentRecord for `goodHash`. -/
def procState : KV := [(String.append "tx:" goodHash, "x", none)]

/-- A cache state in which `goodWallet` has made 9 requests in the current
rate-limit window. -/
def nineCountState : KV :=
  [(String.append "wallet-requests:" goodWallet, "9", some 100)]

/-- A cache state in which `goodWallet` has made 10 requests in the current
rate-limit window. -/
def tenCountState : KV :=
  [(String.append "wallet-requests:" goodWallet, "10", some 100)]

/-- A sample parsed contract artifact for loader scenarios. -/
def sampleContractJson : ContractJson := ⟨"sampleAbi", [("5777", "0xCAFE")]⟩

/-- An environment identical to `allGoodEnv` except that the fetched
transaction has a null `to` field, as for a contract-creation transaction. -/
def nullRecipientEnv : ChainEnv :=
  ⟨true, Except.ok (some ⟨true⟩), some ⟨"0xCAFE"⟩, Except.ok true,
   Except.ok (some ⟨none⟩), Except.ok "order1"⟩

/-- Two distinct prefixed cache keys are distinct strings: the in-flight lock
namespace never collides with the wallet-counter namespace. -/
theorem lockKey_ne_walletKey (h w : String) :
    (String.append "tx-processing:" h == String.append "wallet-requests:" w) = false := by
  apply beq_eq_false_iff_ne.mpr
  intro hEq
  have hd : (String.append "tx-processing:" h).data = (String.append "wallet-requests:" w).data :=
    congrArg String.data hEq
  have hd2 : 't' :: ("x-processing:".data ++ h.data) =
      'w' :: ("allet-requests:".data ++ w.data) := hd
  injection hd2 with h1 _
  exact absurd h1 (by decide)

/-- A successful run of the verification handler over the live Redis client
leaves the cache extended with exactly the processed-payment record for the
request hash, under the 7-day TTL. -/
theorem verify_ok_final_state (env : ChainEnv) (req : VReq) (now : Nat) (s : KV)
    (h oid : String) (amt : Option Int)
    (hh : req.transactionHash = some h)
    (hok : (verifyCryptoPayment redisLiveClient env req now s).1 = VerifyResp.ok oid amt) :
    (verifyCryptoPayment redisLiveClient env req now s).2.1 =
      (String.append "tx:" h, processedPaymentValue oid now, some (now + 604800)) :: s := by
  simp only [verifyCryptoPayment, verifyCryptoInner, redisLiveClient, hh] at hok ⊢
  repeat' split at hok
  all_goals simp_all [kvSet, errBlockchainVerify]

/-- Whenever a ProcessedPaymentRecord for the request hash is already in the
cache, the handler answers 400 "Transaction already processed" and performs
no side effect. -/
theorem verify_cached_no_order {σ : Type} (cl : CacheClient σ) (env : ChainEnv) (req : VReq)
    (now : Nat) (s s1 : σ) (pid w h v : String)
    (hprod : req.products.isEmpty = false)
    (hpid : req.paymentId = some pid) (hw : req.walletAddress = some w)
    (hh : req.transactionHash = some h)
    (hget : cl.get s now (String.append "tx:" h) = (Except.ok (some v), s1)) :
    (verifyCryptoPayment cl env req now s).1 =
      VerifyResp.err 400 "Transaction already processed" none none ∧
    (verifyCryptoPayment cl env req now s).2.2 = [] := by
  simp [verifyCryptoPayment, hprod, hpid, hw, hh, hget]

/-- An order is persisted only when every gate of the verification pipeline
has passed: healthy node, successful receipt, truthy settlement status, and
matching recipient. -/
theorem verify_order_implies_gates {σ : Type} (cl : CacheClient σ) (env : ChainEnv)
    (req : VReq) (now : Nat) (s : σ) (oid : String)
    (hmem : Effect.orderSaved oid ∈ (verifyCryptoPayment cl env req now s).2.2) :
    orderGates env := by
  simp only [verifyCryptoPayment, verifyCryptoInner] at hmem
  repeat' split at hmem
  all_goals simp_all [orderGates]

/-- A successful run of the verification handler produces exactly the effect
trace: first the order save, then the single processed-payment cache write. -/
theorem verify_ok_trace {σ : Type} (cl : CacheClient σ) (env : ChainEnv) (req : VReq)
    (now : Nat) (s : σ) (h oid : String) (amt : Option Int)
    (hh : req.transactionHash = some h)
    (hok : (verifyCryptoPayment cl env req now s).1 = VerifyResp.ok oid amt) :
    (verifyCryptoPayment cl env req now s).2.2 =
      [Effect.orderSaved oid,
       Effect.cacheWrite (String.append "tx:" h) (processedPaymentValue oid now) (some 604800)] := by
  simp only [verifyCryptoPayment, verifyCryptoInner, hh] at hok ⊢
  repeat' split at hok
  all_goals simp_all [errBlockchainVerify]

/-- C1: a request whose transaction hash already has a ProcessedPaymentRecord
at `tx:<hash>` is claimed to get an idempotent success, not an error; the
handler in fact answers it with the 400 error response "Transaction already
processed" (payment.middleware.js lines 229-232), creating no order: the
response is an error, refuting the claim at this concrete replay. -/
theorem c1_counterexample :
    (verifyCryptoPayment redisLiveClient allGoodEnv goodReq 5 procState).1 =
      VerifyResp.err 400 "Transaction already processed" none none ∧
    isSuccessResp (verifyCryptoPayment redisLiveClient allGoodEnv goodReq 5 procState).1 =
      false ∧
    ordersCreated (verifyCryptoPayment redisLiveClient allGoodEnv goodReq 5 procState).2.2 = 0 :=
  ⟨rfl, rfl, rfl⟩

/-- C1 (amended): for every request whose transactionHash already has a
ProcessedPaymentRecord at `tx:<hash>`, verify rejects it with the 400 error
response "Transaction already processed" — an error response, not an
idempotent success — and creates no new order, performing no side effect. -/
theorem c1_replay_rejected_no_order {σ : Type} (cl : CacheClient σ) (env : ChainEnv)
    (req : VReq) (now : Nat) (s s1 : σ) (pid w h v : String)
    (hprod : req.products.isEmpty = false)
    (hpid : req.paymentId = some pid) (hw : req.walletAddress = some w)
    (hh : req.transactionHash = some h)
    (hget : cl.get s now (String.append "tx:" h) = (Except.ok (some v), s1)) :
    verifyCryptoPayment cl env req now s =
      (VerifyResp.err 400 "Transaction already processed" none none, s1, []) := by
  simp only [verifyCryptoPayment, hprod, hpid, hw, hh, hget, Bool.false_eq_true, if_false]

/-- Witness for C1 (amended) at a concrete replayed request. -/
theorem c1_witness :
    verifyCryptoPayment redisLiveClient allGoodEnv goodReq 5 procState =
      (VerifyResp.err 400 "Transaction already processed" none none, procState, []) :=
  c1_replay_rejected_no_order redisLiveClient allGoodEnv goodReq 5 procState procState
    "pay1" goodWallet goodHash "x" rfl rfl rfl rfl rfl

/-- C2: the claim that in-flight lock acquisition is an atomic set-if-absent,
so that at most one of two concurrent verifications of the same hash can pass
the gate, is false: the source performs a separate `get` followed by an
unconditional `set` (payment.middleware.js lines 47-57), and under the
interleaving get-A, get-B, set-A, set-B both requests pass the gate. -/
theorem c2_counterexample :
    passedGate (runGate goodHash 0 [true, false, true, false] initGate).pcA = true ∧
    passedGate (runGate goodHash 0 [true, false, true, false] initGate).pcB = true :=
  ⟨rfl, rfl⟩

/-- C2 (amended): lock acquisition is a non-atomic check-then-act — a cache
read of `tx-processing:<hash>` followed by an unconditional write: when the
two requests run serially the second is blocked by the first's lock, but
there is an interleaving of the two cache operations under which both
concurrent verifications pass the in-flight gate. -/
theorem c2_gate_check_then_act :
    (passedGate (runGate goodHash 0 [true, true, false, false] initGate).pcA = true ∧
     passedGate (runGate goodHash 0 [true, true, false, false] initGate).pcB = false) ∧
    (passedGate (runGate goodHash 7 [false, true, false, true] initGate).pcA = true ∧
     passedGate (runGate goodHash 7 [false, true, false, true] initGate).pcB = true) :=
  ⟨⟨rfl, rfl⟩, ⟨rfl, rfl⟩⟩

/-- C3: an order is created only after the receipt was fetched and indicates
success, the settlement contract reported a truthy status, and the
transaction recipient equals the contract address case-insensitively
(`orderGates`); a request whose hash already has a committed
ProcessedPaymentRecord is answered 400 with no order; and, over the live
Redis client, after a successful commit any later call for the same hash
within the record's 7-day TTL is answered 400 and creates no second order. -/
theorem c3_order_gating_and_idempotency :
    (∀ (σ : Type) (cl : CacheClient σ) (env : ChainEnv) (req : VReq) (now : Nat) (s : σ)
       (oid : String),
       Effect.orderSaved oid ∈ (verifyCryptoPayment cl env req now s).2.2 → orderGates env) ∧
    (∀ (σ : Type) (cl : CacheClient σ) (env : ChainEnv) (req : VReq) (now : Nat) (s s1 : σ)
       (pid w h v : String),
       req.products.isEmpty = false → req.paymentId = some pid →
       req.walletAddress = some w → req.transactionHash = some h →
       cl.get s now (String.append "tx:" h) = (Except.ok (some v), s1) →
       (verifyCryptoPayment cl env req now s).1 =
         VerifyResp.err 400 "Transaction already processed" none none ∧
       ordersCreated (verifyCryptoPayment cl env req now s).2.2 = 0) ∧
    (∀ (envA envB : ChainEnv) (reqA reqB : VReq) (pidB wB h oid : String) (amt : Option Int)
       (nowA nowB : Nat) (sA : KV),
       reqA.transactionHash = some h →
       reqB.products.isEmpty = false → reqB.paymentId = some pidB →
       reqB.walletAddress = some wB → reqB.transactionHash = some h →
       (verifyCryptoPayment redisLiveClient envA reqA nowA sA).1 = VerifyResp.ok oid amt →
       nowB < nowA + 604800 →
       (verifyCryptoPayment redisLiveClient envB reqB nowB
          (verifyCryptoPayment redisLiveClient envA reqA nowA sA).2.1).1 =
         VerifyResp.err 400 "Transaction already processed" none none ∧
       ordersCreated (verifyCryptoPayment redisLiveClient envB reqB nowB
          (verifyCryptoPayment redisLiveClient envA reqA nowA sA).2.1).2.2 = 0) := by
  refine ⟨?_, ?_, ?_⟩
  · intro σ cl env req now s oid hmem
    exact verify_order_implies_gates cl env req now s oid hmem
  · intro σ cl env req now s s1 pid w h v hprod hpid hw hh hget
    have hc := verify_cached_no_order cl env req now s s1 pid w h v hprod hpid hw hh hget
    exact ⟨hc.1, by rw [hc.2]; rfl⟩
  · intro envA envB reqA reqB pidB wB h oid amt nowA nowB sA hhA hprodB hpidB hwB hhB hok hlt
    rw [verify_ok_final_state envA reqA nowA sA h oid amt hhA hok]
    have hget2 : redisLiveClient.get
        ((String.append "tx:" h, processedPaymentValue oid nowA, some (nowA + 604800)) :: sA)
        nowB (String.append "tx:" h) =
        (Except.ok (some (processedPaymentValue oid nowA)),
         (String.append "tx:" h, processedPaymentValue oid nowA, some (nowA + 604800)) :: sA) := by
      simp [redisLiveClient, kvGet, liveEntry, hlt]
    have hc := verify_cached_no_order redisLiveClient envB reqB nowB _ _ pidB wB h
      (processedPaymentValue oid nowA) hprodB hpidB hwB hhB hget2
    exact ⟨hc.1, by rw [hc.2]; rfl⟩

/-- Witness for C3 at a concrete commit followed by a replay of the same
hash: the replay is rejected and creates no second order. -/
theorem c3_witness :
    (verifyCryptoPayment redisLiveClient allGoodEnv goodReq 10
       (verifyCryptoPayment redisLiveClient allGoodEnv goodReq 3 []).2.1).1 =
      VerifyResp.err 400 "Transaction already processed" none none ∧
    ordersCreated (verifyCryptoPayment redisLiveClient allGoodEnv goodReq 10
       (verifyCryptoPayment redisLiveClient allGoodEnv goodReq 3 []).2.1).2.2 = 0 :=
  c3_order_gating_and_idempotency.2.2 allGoodEnv allGoodEnv goodReq goodReq "pay1" goodWallet
    goodHash "order1" (some 5) 3 10 [] rfl rfl rfl rfl rfl rfl (by norm_num)

/-- C4: the claim that when every cache operation throws, verify proceeds to
blockchain verification and never errors solely due to the cache, is false:
with every blockchain check passing (`orderGates allGoodEnv` holds, and the
same request succeeds under a working cache), the handler run over the
unreachable cache returns the generic 500 of its outer catch, because the
dedup read of `tx:<hash>` at line 229 is not guarded by the inner try. -/
theorem c4_counterexample :
    (verifyCryptoPayment unreachableClient allGoodEnv goodReq 0 []).1 =
      VerifyResp.err 500 "An error occurred while verifying crypto payment" none none ∧
    orderGates allGoodEnv ∧
    (verifyCryptoPayment redisLiveClient allGoodEnv goodReq 0 []).1 =
      VerifyResp.ok "order1" (some 5) :=
  ⟨rfl,
   ⟨rfl, ⟨⟨true⟩, rfl, rfl⟩, rfl,
    ⟨⟨"0xCAFE"⟩, ⟨some "0xcafe"⟩, "0xcafe", rfl, rfl, rfl, by decide⟩⟩,
   rfl⟩

/-- C4 (amended): for every structurally valid request, the validation
middleware does degrade gracefully when every cache operation throws — its
catch swallows the error and it calls `next()` with no dedup or rate
limiting — but the verification handler does not: its dedup read of
`tx:<hash>` throwing lands in the outer catch, which answers the generic
500 instead of proceeding to blockchain verification. -/
theorem c4_graceful_only_in_validate (env : ChainEnv) (req : VReq)
    (isAddr : String → Bool) (now : Nat) (s : KV) (pid w h : String) (a : Int)
    (hprod : req.products.isEmpty = false)
    (hpid : req.paymentId = some pid) (hw : req.walletAddress = some w)
    (hh : req.transactionHash = some h) (ha : req.amount = some a) (hpos : 0 < a)
    (haddr : isAddr w = true) (hhash : txHashRegexTest h = true) :
    validateCryptoPayment unreachableClient isAddr now req s = (MWResult.next, s) ∧
    (verifyCryptoPayment unreachableClient env req now s).1 =
      VerifyResp.err 500 "An error occurred while verifying crypto payment" none none := by
  constructor
  · simp [validateCryptoPayment, validateCacheSection, unreachableClient,
      hprod, hpid, hw, hh, ha, haddr, hhash, not_le.mpr hpos]
  · simp [verifyCryptoPayment, unreachableClient, hprod, hpid, hw, hh]

/-- Witness for C4 (amended) at a concrete request with the cache down. -/
theorem c4_witness :
    validateCryptoPayment unreachableClient (fun _ => true) 0 goodReq [] =
      (MWResult.next, []) ∧
    (verifyCryptoPayment unreachableClient allGoodEnv goodReq 0 []).1 =
      VerifyResp.err 500 "An error occurred while verifying crypto payment" none none :=
  c4_graceful_only_in_validate allGoodEnv goodReq (fun _ => true) 0 [] "pay1" goodWallet
    goodHash 5 rfl rfl rfl rfl rfl (by norm_num) rfl (by decide)

/-- C5: within one live 60-second counter window of a single wallet, the
request arriving with the counter at 9 (the 10th request) passes the
rate-limit gate and reaches `next()`, while the request arriving with the
counter at 10 (the 11th request) is rejected 429 with retryAfter 60. -/
theorem c5_rate_limit_boundary (s : KV) (now : Nat) (isAddr : String → Bool) (req : VReq)
    (pid w h : String) (a : Int) (dw : Option Nat)
    (hprod : req.products.isEmpty = false)
    (hpid : req.paymentId = some pid) (hw : req.walletAddress = some w)
    (hh : req.transactionHash = some h) (ha : req.amount = some a) (hpos : 0 < a)
    (haddr : isAddr w = true) (hhash : txHashRegexTest h = true)
    (hlock : kvGet s now (String.append "tx-processing:" h) = none) :
    ((s.find? (fun e => e.1 == String.append "wallet-requests:" w) =
        some (String.append "wallet-requests:" w, "9", dw)) →
      liveEntry now dw = true →
      (validateCryptoPayment redisLiveClient isAddr now req s).1 = MWResult.next) ∧
    ((s.find? (fun e => e.1 == String.append "wallet-requests:" w) =
        some (String.append "wallet-requests:" w, "10", dw)) →
      liveEntry now dw = true →
      (validateCryptoPayment redisLiveClient isAddr now req s).1 =
        MWResult.respond ⟨429, "Too many payment verification requests", some 60, none⟩) := by
  have h9 : (parseCounter "9").getD 0 = 9 := by decide
  have h10 : (parseCounter "10").getD 0 = 10 := by decide
  constructor
  · intro hcnt hlive
    simp [validateCryptoPayment, validateCacheSection, redisLiveClient,
      hprod, hpid, hw, hh, ha, haddr, hhash, not_le.mpr hpos, hlock,
      kvSet, kvIncr, lockKey_ne_walletKey, hcnt, hlive, h9]
  · intro hcnt hlive
    simp [validateCryptoPayment, validateCacheSection, redisLiveClient,
      hprod, hpid, hw, hh, ha, haddr, hhash, not_le.mpr hpos, hlock,
      kvSet, kvIncr, lockKey_ne_walletKey, hcnt, hlive, h10]

/-- Witness for C5 at concrete 10th and 11th requests of one wallet. -/
theorem c5_witness :
    (validateCryptoPayment redisLiveClient (fun _ => true) 0 goodReq nineCountState).1 =
      MWResult.next ∧
    (validateCryptoPayment redisLiveClient (fun _ => true) 0 goodReq tenCountState).1 =
      MWResult.respond ⟨429, "Too many payment verification requests", some 60, none⟩ :=
  ⟨(c5_rate_limit_boundary nineCountState 0 (fun _ => true) goodReq "pay1" goodWallet goodHash
      5 (some 100) rfl rfl rfl rfl rfl (by norm_num) rfl (by decide) rfl).1 rfl rfl,
   (c5_rate_limit_boundary tenCountState 0 (fun _ => true) goodReq "pay1" goodWallet goodHash
      5 (some 100) rfl rfl rfl rfl rfl (by norm_num) rfl (by decide) rfl).2 rfl rfl⟩

/-- C6: the claim that the in-flight lock is stored with a 300-second expiry
under every configured cache client, and that a lock written more than 300 s
earlier never blocks a fresh attempt, is false for the in-memory mock
fallback client: its `set` ignores the EX argument, so the lock entry is
stored with no deadline, and a fresh verification of the same hash 301 s
later is still rejected with the in-flight 429. -/
theorem c6_counterexample :
    (validateCryptoPayment memoryMockClient (fun _ => true) 0 goodReq []).2 =
      [(String.append "tx-processing:" goodHash, "0", none)] ∧
    (validateCryptoPayment memoryMockClient (fun _ => true) 301 goodReq
       (validateCryptoPayment memoryMockClient (fun _ => true) 0 goodReq []).2).1 =
      MWResult.respond ⟨429, "Transaction is already being processed", some 5, none⟩ :=
  ⟨rfl, rfl⟩

/-- C6 (amended): under the live ioredis client and the Upstash REST client
the in-flight lock is stored with its 300-second expiry, and a fresh
verification attempt for the same hash at least 300 s after the lock was
written is no longer blocked (it reaches `next()`); only the in-memory mock
fallback drops the TTL and keeps blocking. -/
theorem c6_lock_ttl_by_client (t now : Nat) (hlate : t + 300 ≤ now) :
    (validateCryptoPayment redisLiveClient (fun _ => true) now goodReq
       (validateCryptoPayment redisLiveClient (fun _ => true) t goodReq []).2).1 =
      MWResult.next ∧
    (validateCryptoPayment upstashRestClient (fun _ => true) now goodReq
       (validateCryptoPayment upstashRestClient (fun _ => true) t goodReq []).2).1 =
      MWResult.next := by
  have hreg : txHashRegexTest goodHash = true := by decide
  have e1 : (String.append "wallet-requests:" goodWallet ==
      String.append "tx-processing:" goodHash) = false := by decide
  have e2 : (String.append "tx-processing:" goodHash ==
      String.append "tx-processing:" goodHash) = true := by decide
  have e3 : (String.append "tx-processing:" goodHash ==
      String.append "wallet-requests:" goodWallet) = false := by decide
  have e4 : (String.append "wallet-requests:" goodWallet ==
      String.append "wallet-requests:" goodWallet) = true := by decide
  have h1 : ¬ (now < t + 300) := by omega
  have h2 : ¬ (now < t + 60) := by omega
  constructor
  · simp [validateCryptoPayment, validateCacheSection, redisLiveClient, kvGet, kvSet,
      kvIncr, kvExpire, liveEntry, goodReq, hreg, e1, e2, e3, e4, h1, h2, List.find?]
  · simp [validateCryptoPayment, validateCacheSection, upstashRestClient, kvGet, kvSet,
      kvIncr, kvExpire, liveEntry, goodReq, hreg, e1, e2, e3, e4, h1, h2, List.find?]

/-- Witness for C6 (amended): a lock taken at time 0 no longer blocks at
time 301 under either TTL-honouring client. -/
theorem c6_witness :
    (validateCryptoPayment redisLiveClient (fun _ => true) 301 goodReq
       (validateCryptoPayment redisLiveClient (fun _ => true) 0 goodReq []).2).1 =
      MWResult.next ∧
    (validateCryptoPayment upstashRestClient (fun _ => true) 301 goodReq
       (validateCryptoPayment upstashRestClient (fun _ => true) 0 goodReq []).2).1 =
      MWResult.next :=
  c6_lock_ttl_by_client 0 301 (by norm_num)

/-- C7: when verify succeeds, the run's effect trace is exactly the order
save followed by one cache write at key `tx:<transactionHash>` whose value
is the JSON record of the created order's id with a timestamp and whose TTL
is 604800 seconds — so the ProcessedPaymentRecord is written exactly once,
and only after the order has been persisted. -/
theorem c7_processed_record_write {σ : Type} (cl : CacheClient σ) (env : ChainEnv)
    (req : VReq) (now : Nat) (s : σ) (h oid : String) (amt : Option Int)
    (hh : req.transactionHash = some h)
    (hok : (verifyCryptoPayment cl env req now s).1 = VerifyResp.ok oid amt) :
    (verifyCryptoPayment cl env req now s).2.2 =
      [Effect.orderSaved oid,
       Effect.cacheWrite (String.append "tx:" h) (processedPaymentValue oid now)
         (some 604800)] :=
  verify_ok_trace cl env req now s h oid amt hh hok

/-- Witness for C7 at a concrete successful verification. -/
theorem c7_witness :
    (verifyCryptoPayment redisLiveClient allGoodEnv goodReq 5 []).2.2 =
      [Effect.orderSaved "order1",
       Effect.cacheWrite (String.append "tx:" goodHash) (processedPaymentValue "order1" 5)
         (some 604800)] :=
  c7_processed_record_write redisLiveClient allGoodEnv goodReq 5 [] goodHash "order1"
    (some 5) rfl rfl

/-- A freshly rebuilt contract artifact, newer than any previous load. -/
def freshArtifact : ArtifactFs := ⟨true, 50, Except.ok sampleContractJson⟩

/-- C8: the loader replaces the descriptor only when the artifact file
exists, its modification time is newer than the time of the last successful
load, and it parses; a missing or malformed artifact leaves the last-good
descriptor unchanged; and the descriptor can only be absent (the
`Unavailable` report) if none was ever successfully loaded. -/
theorem c8_loader_reload_policy (fsa : ArtifactFs) (now : Nat) (st : LoaderState) :
    ((loadContractAbi fsa now st).paymentProcessor ≠ st.paymentProcessor →
      fsa.fileExists = true ∧ fsa.mtimeMs > st.lastContractLoadTime ∧
      ∃ json : ContractJson, fsa.parsed = Except.ok json ∧
        (loadContractAbi fsa now st).paymentProcessor = some json ∧
        (loadContractAbi fsa now st).lastContractLoadTime = now) ∧
    ((fsa.fileExists = false ∨ fsa.parsed = Except.error ()) →
      (loadContractAbi fsa now st).paymentProcessor = st.paymentProcessor) ∧
    ((loadContractAbi fsa now st).paymentProcessor = none →
      st.paymentProcessor = none) := by
  obtain ⟨fe, mt, pr⟩ := fsa
  unfold loadContractAbi
  cases fe <;> cases pr <;> simp_all
  all_goals (split <;> simp_all)

/-- Witness for C8: loading a fresh artifact over the initial placeholder
state installs the parsed descriptor and records the load time. -/
theorem c8_witness :
    freshArtifact.fileExists = true ∧
    freshArtifact.mtimeMs > initLoaderState.lastContractLoadTime ∧
    ∃ json : ContractJson, freshArtifact.parsed = Except.ok json ∧
      (loadContractAbi freshArtifact 5 initLoaderState).paymentProcessor = some json ∧
      (loadContractAbi freshArtifact 5 initLoaderState).lastContractLoadTime = 5 :=
  (c8_loader_reload_policy freshArtifact 5 initLoaderState).1 (by decide)

/-- C9: with the Upstash REST client configured, the per-wallet rate-limit
rejection is unreachable — `redis.incr` is undefined on that client, the
thrown TypeError is swallowed by the middleware's catch, and a structurally
valid request with no in-flight lock proceeds to `next()` no matter how many
requests the wallet already made in the window. -/
theorem c9_upstash_rate_limit_unreachable :
    (∀ (s : KV) (now : Nat) (isAddr : String → Bool) (req : VReq),
       isRateLimitedResp (validateCryptoPayment upstashRestClient isAddr now req s).1 =
         false) ∧
    (∀ (s : KV) (now : Nat) (isAddr : String → Bool) (req : VReq)
       (pid w h : String) (a : Int),
       req.products.isEmpty = false → req.paymentId = some pid →
       req.walletAddress = some w → req.transactionHash = some h →
       req.amount = some a → 0 < a → isAddr w = true → txHashRegexTest h = true →
       kvGet s now (String.append "tx-processing:" h) = none →
       (validateCryptoPayment upstashRestClient isAddr now req s).1 = MWResult.next) := by
  constructor
  · intro s now isAddr req
    simp only [validateCryptoPayment, validateCacheSection, upstashRestClient]
    repeat' split
    all_goals rfl
  · intro s now isAddr req pid w h a hprod hpid hw hh ha hpos haddr hhash hlock
    simp [validateCryptoPayment, validateCacheSection, upstashRestClient,
      hprod, hpid, hw, hh, ha, haddr, hhash, not_le.mpr hpos, hlock]

/-- Witness for C9: even with the wallet counter at 10, the request over the
Upstash REST client proceeds.  -/
theorem c9_witness :
    (validateCryptoPayment upstashRestClient (fun _ => true) 0 goodReq tenCountState).1 =
      MWResult.next :=
  c9_upstash_rate_limit_unreachable.2 tenCountState 0 (fun _ => true) goodReq "pay1"
    goodWallet goodHash 5 rfl rfl rfl rfl rfl (by norm_num) rfl (by decide) rfl

/-- C10: when the fetched transaction exists but its `to` field is null, the
` .toLowerCase()` call throws and lands in the inner catch, so verify answers
the retryable 500 "Error verifying blockchain transaction" — not the 400
wrong-recipient response — and no order is created. -/
theorem c10_null_recipient {σ : Type} (cl : CacheClient σ) (env : ChainEnv) (req : VReq)
    (now : Nat) (s s1 : σ) (pid w h : String) (r : Receipt) (c : ContractInstance)
    (hprod : req.products.isEmpty = false)
    (hpid : req.paymentId = some pid) (hw : req.walletAddress = some w)
    (hh : req.transactionHash = some h)
    (hget : cl.get s now (String.append "tx:" h) = (Except.ok none, s1))
    (hhealthy : env.healthy = true)
    (hrec : env.receipt = Except.ok (some r)) (hrs : r.status = true)
    (hc : env.contract = some c) (hps : env.paymentStatus = Except.ok true)
    (htx : env.transaction = Except.ok (some ⟨none⟩)) :
    (verifyCryptoPayment cl env req now s).1 =
      VerifyResp.err 500 "Error verifying blockchain transaction" (some true) none ∧
    ordersCreated (verifyCryptoPayment cl env req now s).2.2 = 0 := by
  simp [verifyCryptoPayment, verifyCryptoInner, hprod, hpid, hw, hh, hget, hhealthy,
    hrec, hrs, hc, hps, htx, errBlockchainVerify, ordersCreated]

/-- Witness for C10 at a concrete contract-creation transaction. -/
theorem c10_witness :
    (verifyCryptoPayment redisLiveClient nullRecipientEnv goodReq 0 []).1 =
      VerifyResp.err 500 "Error verifying blockchain transaction" (some true) none ∧
    ordersCreated (verifyCryptoPayment redisLiveClient nullRecipientEnv goodReq 0 []).2.2 = 0 :=
  c10_null_recipient redisLiveClient nullRecipientEnv goodReq 0 [] [] "pay1" goodWallet
    goodHash ⟨true⟩ ⟨"0xCAFE"⟩ rfl rfl rfl rfl rfl rfl rfl rfl rfl rfl rfl
